import Mathlib

/-!
Shallow embedding of `index.js` (passwordless magic-link authentication server).

The Prisma `User` table is modelled as a `List User`; timestamps are `Nat`
milliseconds.  Each Express handler becomes a pure function from the request
data and the current database to a response together with the new database and
a flag recording whether the external notifier (`sendMagicLinkEmail`) was
invoked.  Randomness (`crypto.randomBytes`) and the notifier outcome are passed
in as explicit parameters (`tok`, `emailOk`), and `prisma.user.create`'s
generated `cuid` id is the explicit parameter `newId`.  The `updatedAt` audit
column maintained automatically by Prisma plays no role in any handler and is
not modelled.
-/

/-- One row of the Prisma `User` table (`schema.prisma`). -/
structure User where
  id : Nat
  email : String
  name : Option String
  verified : Bool
  magicLinkToken : Option String
  magicLinkExpires : Option Nat
  magicLinkUsed : Bool
  createdAt : Nat
deriving DecidableEq, Repr

/-- HTTP-level responses produced by the handlers. -/
inductive Resp where
  | ok (message : String) (email : String) (name : Option String)
  | verifyOk (id : Nat) (email : String) (name : Option String) (verified : Bool)
  | err (status : Nat) (message : String)
deriving DecidableEq, Repr

/-- Result of one issuance handler: the response, the database afterwards, and
whether `sendMagicLinkEmail` was invoked. -/
structure OpResult where
  resp : Resp
  db : List User
  notified : Bool
deriving DecidableEq, Repr

/-- The handlers' email check: the string contains an at-sign, as in
`email.includes` applied to the single at-sign character. -/
def hasAt (s : String) : Bool :=
  s.data.contains '@'

/-- JavaScript `name || fallback`: `undefined` and the empty string are falsy. -/
def jsOrName (n : Option String) (fallback : Option String) : Option String :=
  match n with
  | some s => if s = "" then fallback else some s
  | none => fallback

/-- `prisma.user.findUnique({ where: { email } })`. -/
def findByEmail (db : List User) (e : String) : Option User :=
  db.find? (fun u => u.email == e)

/-- `prisma.user.update({ where: { email }, data: ... })`. -/
def updateByEmail (db : List User) (e : String) (f : User → User) : List User :=
  db.map (fun u => if u.email == e then f u else u)

/-- `15 * 60 * 1000` milliseconds. -/
def EXPIRY_MS : Nat := 15 * 60 * 1000

/-- The token-field overwrite shared by all three issuance handlers:
`magicLinkToken: token, magicLinkExpires: expiresAt, magicLinkUsed: false`. -/
def issueFields (now : Nat) (tok : String) (u : User) : User :=
  { u with magicLinkToken := some tok,
           magicLinkExpires := some (now + EXPIRY_MS),
           magicLinkUsed := false }

/-- The signup update additionally writes `name: name || user.name`. -/
def signupRefresh (now : Nat) (nm : Option String) (tok : String) (u : User) : User :=
  { issueFields now tok u with name := jsOrName nm u.name }

/-- The record built by `prisma.user.create` in the signup handler
(`verified` and `magicLinkUsed` take their schema defaults). -/
def newUser (newId : Nat) (e : String) (nm : Option String) (now : Nat) (tok : String) : User :=
  { id := newId, email := e, name := nm, verified := false,
    magicLinkToken := some tok, magicLinkExpires := some (now + EXPIRY_MS),
    magicLinkUsed := false, createdAt := now }

/-- `POST /api/auth/signup`. -/
def signup (db : List User) (now : Nat) (email : Option String) (nm : Option String)
    (tok : String) (newId : Nat) (emailOk : Bool) : OpResult :=
  match email with
  | none => ⟨.err 400 "Valid email is required", db, false⟩
  | some e =>
    if hasAt e then
      match findByEmail db e with
      | some u =>
        if u.verified then
          ⟨.err 409 "Account already exists and verified", db, false⟩
        else
          let db2 := updateByEmail db e (signupRefresh now nm tok)
          if emailOk then
            ⟨.ok ("Verification link sent to your email! Check your inbox.") e (jsOrName nm u.name),
             db2, true⟩
          else
            ⟨.err 500 "Failed to create account. Please try again.", db2, true⟩
      | none =>
        let db2 := db ++ [newUser newId e nm now tok]
        if emailOk then
          ⟨.ok ("Verification link sent to your email! Check your inbox.") e nm, db2, true⟩
        else
          ⟨.err 500 "Failed to create account. Please try again.", db2, true⟩
    else ⟨.err 400 "Valid email is required", db, false⟩

/-- `POST /api/auth/login`. -/
def login (db : List User) (now : Nat) (email : Option String)
    (tok : String) (emailOk : Bool) : OpResult :=
  match email with
  | none => ⟨.err 400 "Valid email is required", db, false⟩
  | some e =>
    if hasAt e then
      match findByEmail db e with
      | none => ⟨.err 404 "No verified account found with this email", db, false⟩
      | some u =>
        if u.verified then
          let db2 := updateByEmail db e (issueFields now tok)
          if emailOk then
            ⟨.ok ("Login link sent to your email! Check your inbox.") u.email u.name, db2, true⟩
          else
            ⟨.err 500 "Failed to send login link. Please try again.", db2, true⟩
        else ⟨.err 404 "No verified account found with this email", db, false⟩
    else ⟨.err 400 "Valid email is required", db, false⟩

/-- `POST /api/auth/resend-verification`. -/
def resend (db : List User) (now : Nat) (email : Option String)
    (tok : String) (emailOk : Bool) : OpResult :=
  match email with
  | none => ⟨.err 400 "Valid email is required", db, false⟩
  | some e =>
    if hasAt e then
      match findByEmail db e with
      | none => ⟨.err 404 "No account found with this email", db, false⟩
      | some u =>
        if u.verified then ⟨.err 400 "Account is already verified", db, false⟩
        else
          let db2 := updateByEmail db e (issueFields now tok)
          if emailOk then
            ⟨.ok ("New verification link sent to your email!") u.email u.name, db2, true⟩
          else
            ⟨.err 500 "Failed to send verification link. Please try again.", db2, true⟩
    else ⟨.err 400 "Valid email is required", db, false⟩

/-- `magicLinkExpires: { gt: new Date() }`; a `null` expiry never matches. -/
def notYetExpired (now : Nat) (u : User) : Bool :=
  match u.magicLinkExpires with
  | some ex => decide (now < ex)
  | none => false

/-- The `where` clause of `findFirst` in the verify handler:
`magicLinkToken: token, magicLinkUsed: false, magicLinkExpires: { gt: now }`. -/
def matchesToken (now : Nat) (t : String) (u : User) : Bool :=
  u.magicLinkToken == some t && !u.magicLinkUsed && notYetExpired now u

/-- First store call of the verify handler: `prisma.user.findFirst(...)`. -/
def verifyFind (db : List User) (now : Nat) (t : String) : Option User :=
  db.find? (matchesToken now t)

/-- Second store call of the verify handler:
`prisma.user.update({ where: { id }, data: { verified: true, magicLinkToken: null,
magicLinkExpires: null, magicLinkUsed: true } })` — unconditional on the row state. -/
def claimUser (db : List User) (uid : Nat) : List User :=
  db.map (fun v =>
    if v.id == uid then
      { v with verified := true, magicLinkToken := none,
               magicLinkExpires := none, magicLinkUsed := true }
    else v)

/-- `GET /api/auth/verify` as one sequential execution of its two store calls. -/
def verify (db : List User) (now : Nat) (token : Option String) : Resp × List User :=
  match token with
  | none => (.err 400 "Verification token is required", db)
  | some t =>
    if t = "" then (.err 400 "Verification token is required", db)
    else
      match verifyFind db now t with
      | none => (.err 400 "Invalid or expired verification link", db)
      | some u =>
        let db2 := claimUser db u.id
        (.verifyOk u.id u.email u.name true, db2)

/-- Two concurrent verify requests for the same token under the interleaving in
which both `findFirst` calls run before either `update`: each handler succeeds
exactly when its own `findFirst` matched, because the follow-up `update` is
keyed on `id` alone and carries no condition on the row still being unclaimed.
Returns the two success flags and the final database. -/
def verifyRace (db : List User) (now : Nat) (t : String) : (Bool × Bool) × List User :=
  let fa := verifyFind db now t
  let fb := verifyFind db now t
  match fa, fb with
  | some ua, some ub => ((true, true), claimUser (claimUser db ua.id) ub.id)
  | some ua, none => ((true, false), claimUser db ua.id)
  | none, some ub => ((false, true), claimUser db ub.id)
  | none, none => ((false, false), db)

/-- `cleanupExpiredTokens`: the `where` clause
`magicLinkExpires: { lt: now }, magicLinkToken: { not: null }`. -/
def sweepCond (now : Nat) (u : User) : Bool :=
  (match u.magicLinkExpires with
   | some ex => decide (ex < now)
   | none => false) && u.magicLinkToken.isSome

/-- The `data` written by `cleanupExpiredTokens`. -/
def clearTokenFields (u : User) : User :=
  { u with magicLinkToken := none, magicLinkExpires := none, magicLinkUsed := false }

/-- The hourly janitor `cleanupExpiredTokens` (`prisma.user.updateMany`). -/
def cleanupExpiredTokens (db : List User) (now : Nat) : List User :=
  db.map (fun u => if sweepCond now u then clearTokenFields u else u)

/-- One request against the server, with its wall-clock time and the
nondeterministic inputs (fresh token, generated id, notifier outcome) made
explicit. -/
inductive Op where
  | signupOp (now : Nat) (email : Option String) (nm : Option String)
      (tok : String) (newId : Nat) (emailOk : Bool)
  | loginOp (now : Nat) (email : Option String) (tok : String) (emailOk : Bool)
  | resendOp (now : Nat) (email : Option String) (tok : String) (emailOk : Bool)
  | verifyOp (now : Nat) (token : Option String)
  | cleanupOp (now : Nat)
deriving DecidableEq, Repr

/-- The database after one request. -/
def applyOp (db : List User) : Op → List User
  | .signupOp now e nm tok newId ok => (signup db now e nm tok newId ok).db
  | .loginOp now e tok ok => (login db now e tok ok).db
  | .resendOp now e tok ok => (resend db now e tok ok).db
  | .verifyOp now token => (verify db now token).2
  | .cleanupOp now => cleanupExpiredTokens db now

/-- The database after a sequence of requests. -/
def applyOps (db : List User) (ops : List Op) : List User :=
  ops.foldl applyOp db

/-- No row of the database stores token `t`. -/
def tokenAbsent (t : String) (db : List User) : Prop :=
  ∀ u ∈ db, u.magicLinkToken ≠ some t

/-- The request does not issue `t` as its freshly generated token (the server
draws tokens from `crypto.randomBytes(32)`, so a previously consumed token is
never re-issued). -/
def freshFor (t : String) : Op → Prop
  | .signupOp _ _ _ tok _ _ => tok ≠ t
  | .loginOp _ _ tok _ => tok ≠ t
  | .resendOp _ _ tok _ => tok ≠ t
  | .verifyOp _ _ => True
  | .cleanupOp _ => True

/-! ## Helper lemmas -/

theorem length_map_eq (f : User → User) (l : List User) : (l.map f).length = l.length := by
  simp

theorem get_map_eq (f : User → User) (l : List User) (i : Nat)
    (h : i < l.length) (h2 : i < (l.map f).length) :
    (l.map f).get ⟨i, h2⟩ = f (l.get ⟨i, h⟩) := by
  simp

theorem get_append_left_eq (l l2 : List User) (i : Nat)
    (h : i < l.length) (h2 : i < (l ++ l2).length) :
    (l ++ l2).get ⟨i, h2⟩ = l.get ⟨i, h⟩ := by
  simp only [List.get_eq_getElem]
  exact List.getElem_append_left h

theorem signup_update_spec (db : List User) (now : Nat) (e : String) (nm : Option String)
    (tok : String) (newId : Nat) (ok : Bool) (u : User)
    (hval : hasAt e = true) (hfind : findByEmail db e = some u) (hunv : u.verified = false) :
    signup db now (some e) nm tok newId ok =
      ⟨if ok then
         Resp.ok ("Verification link sent to your email! Check your inbox.") e (jsOrName nm u.name)
       else Resp.err 500 "Failed to create account. Please try again.",
       updateByEmail db e (signupRefresh now nm tok), true⟩ := by
  cases ok <;> simp [signup, hval, hfind, hunv]

theorem signup_create_spec (db : List User) (now : Nat) (e : String) (nm : Option String)
    (tok : String) (newId : Nat) (ok : Bool)
    (hval : hasAt e = true) (hfind : findByEmail db e = none) :
    signup db now (some e) nm tok newId ok =
      ⟨if ok then Resp.ok ("Verification link sent to your email! Check your inbox.") e nm
       else Resp.err 500 "Failed to create account. Please try again.",
       db ++ [newUser newId e nm now tok], true⟩ := by
  cases ok <;> simp [signup, hval, hfind]

theorem login_issue_spec (db : List User) (now : Nat) (e : String)
    (tok : String) (ok : Bool) (u : User)
    (hval : hasAt e = true) (hfind : findByEmail db e = some u) (hver : u.verified = true) :
    login db now (some e) tok ok =
      ⟨if ok then Resp.ok ("Login link sent to your email! Check your inbox.") u.email u.name
       else Resp.err 500 "Failed to send login link. Please try again.",
       updateByEmail db e (issueFields now tok), true⟩ := by
  cases ok <;> simp [login, hval, hfind, hver]

theorem resend_issue_spec (db : List User) (now : Nat) (e : String)
    (tok : String) (ok : Bool) (u : User)
    (hval : hasAt e = true) (hfind : findByEmail db e = some u) (hunv : u.verified = false) :
    resend db now (some e) tok ok =
      ⟨if ok then Resp.ok ("New verification link sent to your email!") u.email u.name
       else Resp.err 500 "Failed to send verification link. Please try again.",
       updateByEmail db e (issueFields now tok), true⟩ := by
  cases ok <;> simp [resend, hval, hfind, hunv]

theorem signup_db_cases (db : List User) (now : Nat) (email : Option String) (nm : Option String)
    (tok : String) (newId : Nat) (ok : Bool) :
    (signup db now email nm tok newId ok).db = db ∨
    (∃ e, email = some e ∧
      (signup db now email nm tok newId ok).db = updateByEmail db e (signupRefresh now nm tok)) ∨
    (∃ e, email = some e ∧
      (signup db now email nm tok newId ok).db = db ++ [newUser newId e nm now tok]) := by
  match email with
  | none => left; rfl
  | some e =>
    by_cases hval : hasAt e
    · cases hfind : findByEmail db e with
      | none =>
        right; right
        exact ⟨e, rfl, by rw [signup_create_spec db now e nm tok newId ok hval hfind]⟩
      | some u =>
        by_cases hver : u.verified
        · left; simp [signup, hval, hfind, hver]
        · right; left
          refine ⟨e, rfl, ?_⟩
          rw [signup_update_spec db now e nm tok newId ok u hval hfind (by simpa using hver)]
    · left; simp [signup, hval]

theorem login_db_cases (db : List User) (now : Nat) (email : Option String)
    (tok : String) (ok : Bool) :
    (login db now email tok ok).db = db ∨
    (∃ e, email = some e ∧
      (login db now email tok ok).db = updateByEmail db e (issueFields now tok)) := by
  match email with
  | none => left; rfl
  | some e =>
    by_cases hval : hasAt e
    · cases hfind : findByEmail db e with
      | none => left; simp [login, hval, hfind]
      | some u =>
        by_cases hver : u.verified
        · right
          exact ⟨e, rfl, by rw [login_issue_spec db now e tok ok u hval hfind hver]⟩
        · left; simp [login, hval, hfind, hver]
    · left; simp [login, hval]

theorem resend_db_cases (db : List User) (now : Nat) (email : Option String)
    (tok : String) (ok : Bool) :
    (resend db now email tok ok).db = db ∨
    (∃ e, email = some e ∧
      (resend db now email tok ok).db = updateByEmail db e (issueFields now tok)) := by
  match email with
  | none => left; rfl
  | some e =>
    by_cases hval : hasAt e
    · cases hfind : findByEmail db e with
      | none => left; simp [resend, hval, hfind]
      | some u =>
        by_cases hver : u.verified
        · left; simp [resend, hval, hfind, hver]
        · right
          refine ⟨e, rfl, ?_⟩
          rw [resend_issue_spec db now e tok ok u hval hfind (by simpa using hver)]
    · left; simp [resend, hval]

theorem verify_db_cases (db : List User) (now : Nat) (token : Option String) :
    (verify db now token).2 = db ∨
    (∃ t u, token = some t ∧ verifyFind db now t = some u ∧
      (verify db now token).2 = claimUser db u.id) := by
  match token with
  | none => left; rfl
  | some t =>
    by_cases hne : t = ""
    · left; simp [verify, hne]
    · cases hf : verifyFind db now t with
      | none => left; simp [verify, hne, hf]
      | some u => right; exact ⟨t, u, rfl, hf, by simp [verify, hne, hf]⟩

theorem not_matchesToken_of_ne (now : Nat) (t : String) (u : User)
    (h : u.magicLinkToken ≠ some t) : matchesToken now t u = false := by
  simp [matchesToken, h]

theorem verifyFind_eq_none_of_absent (db : List User) (now : Nat) (t : String)
    (h : tokenAbsent t db) : verifyFind db now t = none := by
  apply List.find?_eq_none.mpr
  intro v hv
  simp [not_matchesToken_of_ne now t v (h v hv)]

theorem tokenAbsent_verify_fails (t : String) (db : List User) (now : Nat)
    (hne : t ≠ "") (h : tokenAbsent t db) :
    verify db now (some t) = (Resp.err 400 "Invalid or expired verification link", db) := by
  simp [verify, hne, verifyFind_eq_none_of_absent db now t h]

theorem tokenAbsent_updateByEmail (t : String) (db : List User) (e : String) (f : User → User)
    (hf : ∀ u, (f u).magicLinkToken ≠ some t) (h : tokenAbsent t db) :
    tokenAbsent t (updateByEmail db e f) := by
  intro v hv
  rcases List.mem_map.mp hv with ⟨w, hw, rfl⟩
  by_cases he : w.email == e
  · simp [he, hf w]
  · simp [he, h w hw]

theorem tokenAbsent_claimUser (t : String) (db : List User) (uid : Nat)
    (h : tokenAbsent t db) : tokenAbsent t (claimUser db uid) := by
  intro v hv
  rcases List.mem_map.mp hv with ⟨w, hw, rfl⟩
  by_cases hid : w.id == uid
  · simp [claimUser, hid]
  · simp [claimUser, hid, h w hw]

theorem tokenAbsent_cleanup (t : String) (db : List User) (now : Nat)
    (h : tokenAbsent t db) : tokenAbsent t (cleanupExpiredTokens db now) := by
  intro v hv
  rcases List.mem_map.mp hv with ⟨w, hw, rfl⟩
  by_cases hc : sweepCond now w
  · simp [hc, clearTokenFields]
  · simp [hc, h w hw]

theorem tokenAbsent_append_newUser (t : String) (db : List User)
    (newId : Nat) (e : String) (nm : Option String) (now : Nat) (tok : String)
    (htok : tok ≠ t) (h : tokenAbsent t db) :
    tokenAbsent t (db ++ [newUser newId e nm now tok]) := by
  intro v hv
  rcases List.mem_append.mp hv with hv1 | hv2
  · exact h v hv1
  · rcases List.mem_singleton.mp hv2 with rfl
    simp [newUser, htok]

theorem tokenAbsent_applyOp (t : String) (db : List User) (op : Op)
    (hf : freshFor t op) (h : tokenAbsent t db) : tokenAbsent t (applyOp db op) := by
  cases op with
  | signupOp now e nm tok newId ok =>
    have htok : tok ≠ t := hf
    rcases signup_db_cases db now e nm tok newId ok with h1 | ⟨e2, _, h1⟩ | ⟨e2, _, h1⟩
    · simpa [applyOp, h1]
    · rw [applyOp, h1]
      exact tokenAbsent_updateByEmail t db e2 _ (fun u => by simp [signupRefresh, issueFields, htok]) h
    · rw [applyOp, h1]
      exact tokenAbsent_append_newUser t db newId e2 nm now tok htok h
  | loginOp now e tok ok =>
    have htok : tok ≠ t := hf
    rcases login_db_cases db now e tok ok with h1 | ⟨e2, _, h1⟩
    · simpa [applyOp, h1]
    · rw [applyOp, h1]
      exact tokenAbsent_updateByEmail t db e2 _ (fun u => by simp [issueFields, htok]) h
  | resendOp now e tok ok =>
    have htok : tok ≠ t := hf
    rcases resend_db_cases db now e tok ok with h1 | ⟨e2, _, h1⟩
    · simpa [applyOp, h1]
    · rw [applyOp, h1]
      exact tokenAbsent_updateByEmail t db e2 _ (fun u => by simp [issueFields, htok]) h
  | verifyOp now token =>
    rcases verify_db_cases db now token with h1 | ⟨t2, u, _, _, h1⟩
    · simpa [applyOp, h1]
    · rw [applyOp, h1]
      exact tokenAbsent_claimUser t db u.id h
  | cleanupOp now =>
    exact tokenAbsent_cleanup t db now h

theorem tokenAbsent_applyOps (t : String) (db : List User) (ops : List Op)
    (hf : ∀ op ∈ ops, freshFor t op) (h : tokenAbsent t db) :
    tokenAbsent t (applyOps db ops) := by
  induction ops generalizing db with
  | nil => exact h
  | cons op rest ih =>
    exact ih (applyOp db op) (fun o ho => hf o (List.mem_cons_of_mem op ho))
      (tokenAbsent_applyOp t db op (hf op (List.mem_cons_self op rest)) h)

theorem matchesToken_token_eq (now : Nat) (t : String) (u : User)
    (h : matchesToken now t u = true) : u.magicLinkToken = some t := by
  simp [matchesToken] at h
  exact h.1.1

theorem tokenAbsent_after_claim (db : List User) (now : Nat) (t : String) (u : User)
    (huniq : ∀ v ∈ db, v.magicLinkToken = some t →
      ∀ w ∈ db, w.magicLinkToken = some t → v.id = w.id)
    (hfound : verifyFind db now t = some u) :
    tokenAbsent t (claimUser db u.id) := by
  have humem : u ∈ db := List.mem_of_find?_eq_some hfound
  have hut : u.magicLinkToken = some t :=
    matchesToken_token_eq now t u (List.find?_some hfound)
  intro v hv
  rcases List.mem_map.mp hv with ⟨w, hw, rfl⟩
  by_cases hid : w.id == u.id
  · simp [claimUser, hid]
  · simp only [claimUser, hid, if_neg, Bool.false_eq_true, reduceIte]
    intro htw
    exact hid (by simp [huniq w hw htw u humem hut])

/-! ## Claim theorems -/

/-- C1: for every token t, verifyToken(t) succeeds at most once in a sequential
execution: after a successful `verify` call on token t (which clears the
matched account's outstanding token and marks it consumed), every later
`verify` call on t fails with the invalid-or-expired response, across any
sequence of further requests whose freshly generated tokens are distinct from
t (tokens come from 256-bit randomness, so a consumed token is never
re-issued), provided at most one row held t (the schema's unique constraint on
`magicLinkToken`). -/
theorem verify_succeeds_at_most_once
    (db : List User) (now now2 : Nat) (t : String) (u : User) (hne : t ≠ "")
    (huniq : ∀ v ∈ db, v.magicLinkToken = some t →
      ∀ w ∈ db, w.magicLinkToken = some t → v.id = w.id)
    (hfound : verifyFind db now t = some u)
    (ops : List Op) (hfresh : ∀ op ∈ ops, freshFor t op) :
    (verify db now (some t)).1 = Resp.verifyOk u.id u.email u.name true ∧
    (verify (applyOps (verify db now (some t)).2 ops) now2 (some t)).1
      = Resp.err 400 "Invalid or expired verification link" := by
  have hv : verify db now (some t)
      = (Resp.verifyOk u.id u.email u.name true, claimUser db u.id) := by
    simp [verify, hne, hfound]
  constructor
  · rw [hv]
  · rw [hv]
    have habs := tokenAbsent_applyOps t (claimUser db u.id) ops hfresh
      (tokenAbsent_after_claim db now t u huniq hfound)
    rw [tokenAbsent_verify_fails t _ now2 hne habs]

/-- Witness for C1 at a concrete database: one unverified user holding live
token T; after the successful verification and an intervening janitor sweep,
a second verification of T fails. -/
theorem verify_succeeds_at_most_once_witness :
    (verify [⟨1, "a@x.com", none, false, some ("T"), some 100, false, 0⟩] 5 (some ("T"))).1
      = Resp.verifyOk 1 "a@x.com" none true ∧
    (verify (applyOps
        (verify [⟨1, "a@x.com", none, false, some ("T"), some 100, false, 0⟩] 5 (some ("T"))).2
        [Op.cleanupOp 200]) 7 (some ("T"))).1
      = Resp.err 400 "Invalid or expired verification link" :=
  verify_succeeds_at_most_once
    [⟨1, "a@x.com", none, false, some ("T"), some 100, false, 0⟩] 5 7 "T"
    ⟨1, "a@x.com", none, false, some ("T"), some 100, false, 0⟩
    (by decide) (by decide) (by decide) [Op.cleanupOp 200]
    (by
      intro op hop
      rw [List.mem_singleton] at hop
      subst hop
      exact trivial)

/-- C2: REFUTED on the code. The verify handler is not an atomic
lookup-and-claim: it is `findFirst` followed by an unconditional `update`
keyed on `id`. At a database with one user holding a live token, under the
interleaving where two concurrent verify requests both run `findFirst`
before either runs `update` (`verifyRace`), BOTH requests succeed — whereas a
sequential second call fails, confirming that the double success is exactly
the race the spec's atomicity requirement is meant to exclude. -/
theorem verify_race_both_succeed :
    (verifyRace [⟨1, "a@x.com", none, false, some ("T"), some 100, false, 0⟩] 5 "T").1
      = (true, true) ∧
    (verify [⟨1, "a@x.com", none, false, some ("T"), some 100, false, 0⟩] 5 (some ("T"))).1
      = Resp.verifyOk 1 "a@x.com" none true ∧
    (verify (verify [⟨1, "a@x.com", none, false, some ("T"), some 100, false, 0⟩] 5 (some ("T"))).2
        6 (some ("T"))).1
      = Resp.err 400 "Invalid or expired verification link" := by
  decide

/-- C4: a token whose expiry timestamp is at or before the current time never
verifies, even if never consumed: the `findFirst` condition requires
`magicLinkExpires` strictly greater than now, so `verify` fails with the
invalid-or-expired response and leaves the database unchanged. -/
theorem expired_token_never_verifies
    (db : List User) (now : Nat) (t : String) (hne : t ≠ "")
    (hexp : ∀ v ∈ db, v.magicLinkToken = some t →
      ∃ ex, v.magicLinkExpires = some ex ∧ ex ≤ now) :
    verify db now (some t) = (Resp.err 400 "Invalid or expired verification link", db) := by
  have hnone : verifyFind db now t = none := by
    apply List.find?_eq_none.mpr
    intro v hv
    by_cases ht : v.magicLinkToken = some t
    · rcases hexp v hv ht with ⟨ex, hex, hle⟩
      simp only [matchesToken, notYetExpired, hex, Bool.and_eq_true, decide_eq_true_eq]
      rintro ⟨⟨h1, h2⟩, h3⟩
      omega
    · simp [not_matchesToken_of_ne now t v ht]
  simp [verify, hne, hnone]

/-- Witness for C4: a never-consumed token whose expiry equals the current
time fails to verify (the match requires strict inequality). -/
theorem expired_token_never_verifies_witness :
    verify [⟨1, "a@x.com", none, false, some ("T"), some 5, false, 0⟩] 5 (some ("T"))
      = (Resp.err 400 "Invalid or expired verification link",
         [⟨1, "a@x.com", none, false, some ("T"), some 5, false, 0⟩]) :=
  expired_token_never_verifies
    [⟨1, "a@x.com", none, false, some ("T"), some 5, false, 0⟩] 5 "T" (by decide)
    (by
      intro v hv ht
      rw [List.mem_singleton] at hv
      subst hv
      exact ⟨5, rfl, Nat.le_refl 5⟩)

/-- C5: signup for an email whose account exists and is verified fails with
the 409 conflict response, leaves the database completely unchanged, and never
invokes the notifier. -/
theorem signup_already_verified_conflict
    (db : List User) (now : Nat) (e : String) (nm : Option String)
    (tok : String) (newId : Nat) (emailOk : Bool) (u : User)
    (hval : hasAt e = true) (hfind : findByEmail db e = some u) (hver : u.verified = true) :
    signup db now (some e) nm tok newId emailOk
      = ⟨Resp.err 409 "Account already exists and verified", db, false⟩ := by
  simp [signup, hval, hfind, hver]

/-- Witness for C5 at a concrete one-row database with a verified account. -/
theorem signup_already_verified_conflict_witness :
    signup [⟨1, "a@x.com", some ("A"), true, none, none, false, 0⟩] 9
        (some ("a@x.com")) (some ("B")) "T2" 2 true
      = ⟨Resp.err 409 "Account already exists and verified",
         [⟨1, "a@x.com", some ("A"), true, none, none, false, 0⟩], false⟩ :=
  signup_already_verified_conflict
    [⟨1, "a@x.com", some ("A"), true, none, none, false, 0⟩] 9 "a@x.com" (some ("B")) "T2" 2 true
    ⟨1, "a@x.com", some ("A"), true, none, none, false, 0⟩
    (by decide) (by decide) (by decide)

/-- C6: requestLogin for a nonexistent email and for an existing-but-unverified
email return the very same 404 response (same status, same message), with no
database change and no notifier call in either case — no distinguishing
signal. -/
theorem login_notfound_indistinguishable
    (db : List User) (now1 now2 : Nat) (e1 e2 t1 t2 : String) (ok1 ok2 : Bool) (u : User)
    (hv1 : hasAt e1 = true) (hv2 : hasAt e2 = true)
    (habsent : findByEmail db e1 = none)
    (hfind : findByEmail db e2 = some u) (hunv : u.verified = false) :
    login db now1 (some e1) t1 ok1
      = ⟨Resp.err 404 "No verified account found with this email", db, false⟩ ∧
    login db now2 (some e2) t2 ok2 = login db now1 (some e1) t1 ok1 := by
  have h1 : login db now1 (some e1) t1 ok1
      = ⟨Resp.err 404 "No verified account found with this email", db, false⟩ := by
    simp [login, hv1, habsent]
  have h2 : login db now2 (some e2) t2 ok2
      = ⟨Resp.err 404 "No verified account found with this email", db, false⟩ := by
    simp [login, hv2, hfind, hunv]
  exact ⟨h1, by rw [h1, h2]⟩

/-- Witness for C6: a database containing only an unverified account for one
email; login with a fresh email and login with the unverified email produce
identical responses. -/
theorem login_notfound_indistinguishable_witness :
    login [⟨1, "b@x.com", none, false, some ("T"), some 100, false, 0⟩] 3
        (some ("a@x.com")) "T1" true
      = ⟨Resp.err 404 "No verified account found with this email",
         [⟨1, "b@x.com", none, false, some ("T"), some 100, false, 0⟩], false⟩ ∧
    login [⟨1, "b@x.com", none, false, some ("T"), some 100, false, 0⟩] 4
        (some ("b@x.com")) "T2" false
      = login [⟨1, "b@x.com", none, false, some ("T"), some 100, false, 0⟩] 3
          (some ("a@x.com")) "T1" true :=
  login_notfound_indistinguishable
    [⟨1, "b@x.com", none, false, some ("T"), some 100, false, 0⟩] 3 4
    "a@x.com" "b@x.com" "T1" "T2" true false
    ⟨1, "b@x.com", none, false, some ("T"), some 100, false, 0⟩
    (by decide) (by decide) (by decide) (by decide) (by decide)

theorem tokenAbsent_update_holders (t1 : String) (db : List User) (e : String) (f : User → User)
    (hf : ∀ u, (f u).magicLinkToken ≠ some t1)
    (hold : ∀ v ∈ db, v.magicLinkToken = some t1 → v.email = e) :
    tokenAbsent t1 (updateByEmail db e f) := by
  intro v hv
  rcases List.mem_map.mp hv with ⟨w, hw, rfl⟩
  by_cases he : w.email == e
  · simp [he, hf w]
  · simp only [he, Bool.false_eq_true, reduceIte]
    intro htw
    exact he (by simp [hold w hw htw])

/-- C3: any successful issuance (signup refresh for an unverified account,
login for a verified account, resend for an unverified account) overwrites the
account's outstanding token t1 with the fresh token t2, after which verifying
t1 fails with the invalid-or-expired response even though t1 was neither
expired nor consumed; the hypothesis that every holder of t1 is the account's
email row reflects the schema's unique constraints. -/
theorem issuance_invalidates_prior_token
    (db : List User) (now now2 : Nat) (e t1 t2 : String) (nm : Option String)
    (newId : Nat) (ok : Bool) (u : User)
    (hval : hasAt e = true) (hne : t2 ≠ t1) (hne1 : t1 ≠ "")
    (hfind : findByEmail db e = some u) (_hu : u.magicLinkToken = some t1)
    (hold : ∀ v ∈ db, v.magicLinkToken = some t1 → v.email = e) :
    (u.verified = false →
      verify (signup db now (some e) nm t2 newId ok).db now2 (some t1)
        = (Resp.err 400 "Invalid or expired verification link",
           (signup db now (some e) nm t2 newId ok).db)) ∧
    (u.verified = true →
      verify (login db now (some e) t2 ok).db now2 (some t1)
        = (Resp.err 400 "Invalid or expired verification link",
           (login db now (some e) t2 ok).db)) ∧
    (u.verified = false →
      verify (resend db now (some e) t2 ok).db now2 (some t1)
        = (Resp.err 400 "Invalid or expired verification link",
           (resend db now (some e) t2 ok).db)) := by
  have hsome : ∀ u0 : User, some t2 ≠ some t1 := fun _ => by simp [hne]
  refine ⟨?_, ?_, ?_⟩
  · intro hunv
    rw [signup_update_spec db now e nm t2 newId ok u hval hfind hunv]
    exact tokenAbsent_verify_fails t1 _ now2 hne1
      (tokenAbsent_update_holders t1 db e _
        (fun u0 => by simp [signupRefresh, issueFields, hne]) hold)
  · intro hver
    rw [login_issue_spec db now e t2 ok u hval hfind hver]
    exact tokenAbsent_verify_fails t1 _ now2 hne1
      (tokenAbsent_update_holders t1 db e _
        (fun u0 => by simp [issueFields, hne]) hold)
  · intro hunv
    rw [resend_issue_spec db now e t2 ok u hval hfind hunv]
    exact tokenAbsent_verify_fails t1 _ now2 hne1
      (tokenAbsent_update_holders t1 db e _
        (fun u0 => by simp [issueFields, hne]) hold)

/-- Witness for C3: an unverified account holding live token T1; after a
second signup issues T2, verifying T1 fails. -/
theorem issuance_invalidates_prior_token_witness :
    verify (signup [⟨1, "a@x.com", none, false, some ("T1"), some 100, false, 0⟩] 5
        (some ("a@x.com")) none ("T2") 2 true).db 6 (some ("T1"))
      = (Resp.err 400 "Invalid or expired verification link",
         (signup [⟨1, "a@x.com", none, false, some ("T1"), some 100, false, 0⟩] 5
             (some ("a@x.com")) none ("T2") 2 true).db) :=
  (issuance_invalidates_prior_token
    [⟨1, "a@x.com", none, false, some ("T1"), some 100, false, 0⟩] 5 6
    "a@x.com" "T1" "T2" none 2 true
    ⟨1, "a@x.com", none, false, some ("T1"), some 100, false, 0⟩
    (by decide) (by decide) (by decide) (by decide) (by decide) (by decide)).1 (by decide)

theorem get_of_map_eq (l l2 : List User) (g : User → User) (hl : l2 = l.map g)
    (i : Nat) (h : i < l.length) (h2 : i < l2.length) :
    l2.get ⟨i, h2⟩ = g (l.get ⟨i, h⟩) := by
  subst hl
  exact get_map_eq g l i h h2

theorem get_of_append_eq (l l2 : List User) (nu : User) (hl : l2 = l ++ [nu])
    (i : Nat) (h : i < l.length) (h2 : i < l2.length) :
    l2.get ⟨i, h2⟩ = l.get ⟨i, h⟩ := by
  subst hl
  exact get_append_left_eq l [nu] i h h2

theorem applyOp_shape (db : List User) (op : Op) :
    (∃ g : User → User, applyOp db op = db.map g ∧
       (∀ u, u.verified = true → (g u).verified = true) ∧
       ((∀ nv tk, op ≠ Op.verifyOp nv tk) → ∀ u, (g u).verified = u.verified)) ∨
    (∃ nu : User, applyOp db op = db ++ [nu]) := by
  have hid : ∀ db2 : List User, db2 = db → applyOp db op = db2 →
      (∃ g : User → User, applyOp db op = db.map g ∧
        (∀ u, u.verified = true → (g u).verified = true) ∧
        ((∀ nv tk, op ≠ Op.verifyOp nv tk) → ∀ u, (g u).verified = u.verified)) := by
    intro db2 hdb2 hap
    exact ⟨id, by simp [hap, hdb2], fun u hv => hv, fun _ u => rfl⟩
  cases op with
  | signupOp now e nm tok newId ok =>
    rcases signup_db_cases db now e nm tok newId ok with h1 | ⟨e2, _, h1⟩ | ⟨e2, _, h1⟩
    · exact .inl (hid _ h1.symm.symm (by rw [applyOp, h1]))
    · left
      refine ⟨fun u => if u.email == e2 then signupRefresh now nm tok u else u,
        by rw [applyOp, h1, updateByEmail], ?_, ?_⟩
      · intro u hv
        by_cases he : u.email == e2 <;> simp [he, signupRefresh, issueFields, hv]
      · intro _ u
        by_cases he : u.email == e2 <;> simp [he, signupRefresh, issueFields]
    · right
      exact ⟨newUser newId e2 nm now tok, by rw [applyOp, h1]⟩
  | loginOp now e tok ok =>
    rcases login_db_cases db now e tok ok with h1 | ⟨e2, _, h1⟩
    · exact .inl (hid _ rfl (by rw [applyOp, h1]))
    · left
      refine ⟨fun u => if u.email == e2 then issueFields now tok u else u,
        by rw [applyOp, h1, updateByEmail], ?_, ?_⟩
      · intro u hv
        by_cases he : u.email == e2 <;> simp [he, issueFields, hv]
      · intro _ u
        by_cases he : u.email == e2 <;> simp [he, issueFields]
  | resendOp now e tok ok =>
    rcases resend_db_cases db now e tok ok with h1 | ⟨e2, _, h1⟩
    · exact .inl (hid _ rfl (by rw [applyOp, h1]))
    · left
      refine ⟨fun u => if u.email == e2 then issueFields now tok u else u,
        by rw [applyOp, h1, updateByEmail], ?_, ?_⟩
      · intro u hv
        by_cases he : u.email == e2 <;> simp [he, issueFields, hv]
      · intro _ u
        by_cases he : u.email == e2 <;> simp [he, issueFields]
  | verifyOp now token =>
    rcases verify_db_cases db now token with h1 | ⟨t2, u, _, _, h1⟩
    · exact .inl (hid _ rfl (by rw [applyOp, h1]))
    · left
      refine ⟨fun v => if v.id == u.id then
          { v with verified := true, magicLinkToken := none,
                   magicLinkExpires := none, magicLinkUsed := true }
        else v,
        by rw [applyOp, h1, claimUser], ?_, ?_⟩
      · intro v hv
        by_cases hidv : v.id == u.id <;> simp [hidv, hv]
      · intro hne
        exact absurd rfl (hne now token)
  | cleanupOp now =>
    left
    refine ⟨fun u => if sweepCond now u then clearTokenFields u else u, rfl, ?_, ?_⟩
    · intro u hv
      by_cases hc : sweepCond now u <;> simp [hc, clearTokenFields, hv]
    · intro _ u
      by_cases hc : sweepCond now u <;> simp [hc, clearTokenFields]

/-- C7: the verified flag is monotonic false-to-true. Every request leaves the
existing rows in place (positions preserved; creation only appends); a
verified row never reverts under any request; every request other than verify
leaves each existing row's verified flag exactly unchanged; and the row created
by signup starts with verified = false. -/
theorem verified_monotonic (db : List User) (op : Op) :
    db.length ≤ (applyOp db op).length ∧
    (∀ i (h : i < db.length) (h2 : i < (applyOp db op).length),
        (db.get ⟨i, h⟩).verified = true → ((applyOp db op).get ⟨i, h2⟩).verified = true) ∧
    ((∀ nv tk, op ≠ Op.verifyOp nv tk) →
        ∀ i (h : i < db.length) (h2 : i < (applyOp db op).length),
          ((applyOp db op).get ⟨i, h2⟩).verified = (db.get ⟨i, h⟩).verified) ∧
    (∀ now2 e nm tok newId ok2, hasAt e = true → findByEmail db e = none →
        (signup db now2 (some e) nm tok newId ok2).db = db ++ [newUser newId e nm now2 tok] ∧
        (newUser newId e nm now2 tok).verified = false) := by
  have hcreate : ∀ now2 e nm tok newId ok2, hasAt e = true → findByEmail db e = none →
      (signup db now2 (some e) nm tok newId ok2).db = db ++ [newUser newId e nm now2 tok] ∧
      (newUser newId e nm now2 tok).verified = false := by
    intro now2 e nm tok newId ok2 hval hfind
    rw [signup_create_spec db now2 e nm tok newId ok2 hval hfind]
    exact ⟨rfl, rfl⟩
  rcases applyOp_shape db op with ⟨g, hshape, hmono, hexact⟩ | ⟨nu, hshape⟩
  · refine ⟨by rw [hshape]; simp, ?_, ?_, hcreate⟩
    · intro i h h2 hv
      rw [get_of_map_eq db _ g hshape i h h2]
      exact hmono _ hv
    · intro hne i h h2
      rw [get_of_map_eq db _ g hshape i h h2]
      exact hexact hne _
  · refine ⟨by rw [hshape]; simp, ?_, ?_, hcreate⟩
    · intro i h h2 hv
      rw [get_of_append_eq db _ nu hshape i h h2]
      exact hv
    · intro _ i h h2
      rw [get_of_append_eq db _ nu hshape i h h2]

/-- Witness for C7: a verified account stays verified across a janitor sweep. -/
theorem verified_monotonic_witness :
    ((applyOp [⟨1, "a@x.com", some ("A"), true, some ("T"), some 3, true, 0⟩]
        (Op.cleanupOp 10)).get ⟨0, by decide⟩).verified = true :=
  (verified_monotonic [⟨1, "a@x.com", some ("A"), true, some ("T"), some 3, true, 0⟩]
      (Op.cleanupOp 10)).2.1 0 (by decide) (by decide) (by decide)

/-- C8: the janitor sweep rewrites exactly the rows whose expiry is strictly in
the past and whose token is non-null, clearing `magicLinkToken` and
`magicLinkExpires` and resetting `magicLinkUsed` to false while leaving `id`,
`email`, `name`, `verified` and `createdAt` unchanged; every other row is left
untouched, and no row is added or removed. -/
theorem cleanup_frame (db : List User) (now : Nat) :
    (cleanupExpiredTokens db now).length = db.length ∧
    (∀ i (h : i < db.length) (h2 : i < (cleanupExpiredTokens db now).length),
      (sweepCond now (db.get ⟨i, h⟩) = true →
        (cleanupExpiredTokens db now).get ⟨i, h2⟩ = clearTokenFields (db.get ⟨i, h⟩)) ∧
      (sweepCond now (db.get ⟨i, h⟩) = false →
        (cleanupExpiredTokens db now).get ⟨i, h2⟩ = db.get ⟨i, h⟩)) ∧
    (∀ u : User, (clearTokenFields u).id = u.id ∧ (clearTokenFields u).email = u.email ∧
       (clearTokenFields u).name = u.name ∧ (clearTokenFields u).verified = u.verified ∧
       (clearTokenFields u).createdAt = u.createdAt ∧
       (clearTokenFields u).magicLinkToken = none ∧
       (clearTokenFields u).magicLinkExpires = none ∧
       (clearTokenFields u).magicLinkUsed = false) := by
  have hmap : cleanupExpiredTokens db now
      = db.map (fun u => if sweepCond now u then clearTokenFields u else u) := rfl
  refine ⟨by rw [hmap]; simp, ?_, ?_⟩
  · intro i h h2
    rw [get_of_map_eq db _ _ hmap i h h2]
    constructor
    · intro hc
      simp only [List.get_eq_getElem] at hc
      simp [hc]
    · intro hc
      simp only [List.get_eq_getElem] at hc
      simp [hc]
  · intro u
    exact ⟨rfl, rfl, rfl, rfl, rfl, rfl, rfl, rfl⟩

/-- Witness for C8: a sweep at time 10 clears the expired consumed token of a
verified account (keeping it verified) and leaves an unexpired row untouched. -/
theorem cleanup_frame_witness :
    (cleanupExpiredTokens [⟨1, "a@x.com", some ("A"), true, some ("T"), some 3, true, 0⟩,
        ⟨2, "b@x.com", none, false, some ("U"), some 99, false, 0⟩] 10).get ⟨0, by decide⟩
      = clearTokenFields ⟨1, "a@x.com", some ("A"), true, some ("T"), some 3, true, 0⟩ ∧
    (cleanupExpiredTokens [⟨1, "a@x.com", some ("A"), true, some ("T"), some 3, true, 0⟩,
        ⟨2, "b@x.com", none, false, some ("U"), some 99, false, 0⟩] 10).get ⟨1, by decide⟩
      = ⟨2, "b@x.com", none, false, some ("U"), some 99, false, 0⟩ :=
  ⟨((cleanup_frame [⟨1, "a@x.com", some ("A"), true, some ("T"), some 3, true, 0⟩,
      ⟨2, "b@x.com", none, false, some ("U"), some 99, false, 0⟩] 10).2.1 0
      (by decide) (by decide)).1 (by decide),
   ((cleanup_frame [⟨1, "a@x.com", some ("A"), true, some ("T"), some 3, true, 0⟩,
      ⟨2, "b@x.com", none, false, some ("U"), some 99, false, 0⟩] 10).2.1 1
      (by decide) (by decide)).2 (by decide)⟩

theorem findByEmail_updateByEmail (db : List User) (e : String) (f : User → User)
    (hf : ∀ u, (f u).email = u.email) (u : User)
    (h : findByEmail db e = some u) :
    findByEmail (updateByEmail db e f) e = some (f u) := by
  induction db with
  | nil => simp [findByEmail] at h
  | cons a l ih =>
    have hmap : updateByEmail (a :: l) e f
        = (if a.email == e then f a else a) :: updateByEmail l e f := rfl
    rw [findByEmail, List.find?_cons] at h
    by_cases ha : (a.email == e) = true
    · simp only [ha] at h
      rw [hmap, if_pos ha, findByEmail, List.find?_cons]
      simp only [hf a, ha]
      rw [Option.some.inj h]
    · have ha2 : (a.email == e) = false := by simpa using ha
      simp only [ha2] at h
      rw [hmap, if_neg ha, findByEmail, List.find?_cons]
      simp only [ha2]
      exact ih h

theorem findByEmail_append (db l2 : List User) (e : String)
    (h : findByEmail db e = none) :
    findByEmail (db ++ l2) e = findByEmail l2 e := by
  simp only [findByEmail] at h ⊢
  simp [List.find?_append, h]

/-- C9: when the notifier fails (emailOk = false), each issuance path returns
the generic 500 internal error and has already invoked the notifier, yet the
fresh token and its expiry are persisted on the account; moreover the database
each issuance produces is identical whether the notifier succeeds or fails, so
the token write does not depend on the notifier outcome and a retried issuance
simply overwrites it. -/
theorem notifier_failure_after_persist
    (db : List User) (now : Nat) (e : String) (nm : Option String)
    (tok : String) (newId : Nat) (hval : hasAt e = true) :
    ((signup db now (some e) nm tok newId false).db
        = (signup db now (some e) nm tok newId true).db ∧
     (login db now (some e) tok false).db = (login db now (some e) tok true).db ∧
     (resend db now (some e) tok false).db = (resend db now (some e) tok true).db) ∧
    (∀ u, findByEmail db e = some u → u.verified = false →
      (signup db now (some e) nm tok newId false).resp
        = Resp.err 500 "Failed to create account. Please try again." ∧
      (signup db now (some e) nm tok newId false).notified = true ∧
      findByEmail (signup db now (some e) nm tok newId false).db e
        = some (signupRefresh now nm tok u) ∧
      (signupRefresh now nm tok u).magicLinkToken = some tok ∧
      (signupRefresh now nm tok u).magicLinkExpires = some (now + EXPIRY_MS) ∧
      (signupRefresh now nm tok u).magicLinkUsed = false) ∧
    (findByEmail db e = none →
      (signup db now (some e) nm tok newId false).resp
        = Resp.err 500 "Failed to create account. Please try again." ∧
      (signup db now (some e) nm tok newId false).notified = true ∧
      findByEmail (signup db now (some e) nm tok newId false).db e
        = some (newUser newId e nm now tok) ∧
      (newUser newId e nm now tok).magicLinkToken = some tok ∧
      (newUser newId e nm now tok).magicLinkExpires = some (now + EXPIRY_MS) ∧
      (newUser newId e nm now tok).magicLinkUsed = false) ∧
    (∀ u, findByEmail db e = some u → u.verified = true →
      (login db now (some e) tok false).resp
        = Resp.err 500 "Failed to send login link. Please try again." ∧
      (login db now (some e) tok false).notified = true ∧
      findByEmail (login db now (some e) tok false).db e = some (issueFields now tok u) ∧
      (issueFields now tok u).magicLinkToken = some tok ∧
      (issueFields now tok u).magicLinkExpires = some (now + EXPIRY_MS) ∧
      (issueFields now tok u).magicLinkUsed = false) ∧
    (∀ u, findByEmail db e = some u → u.verified = false →
      (resend db now (some e) tok false).resp
        = Resp.err 500 "Failed to send verification link. Please try again." ∧
      (resend db now (some e) tok false).notified = true ∧
      findByEmail (resend db now (some e) tok false).db e = some (issueFields now tok u) ∧
      (issueFields now tok u).magicLinkToken = some tok ∧
      (issueFields now tok u).magicLinkExpires = some (now + EXPIRY_MS) ∧
      (issueFields now tok u).magicLinkUsed = false) := by
  refine ⟨⟨?_, ?_, ?_⟩, ?_, ?_, ?_, ?_⟩
  · cases hfind : findByEmail db e with
    | none =>
      rw [signup_create_spec db now e nm tok newId false hval hfind,
          signup_create_spec db now e nm tok newId true hval hfind]
    | some u =>
      by_cases hver : u.verified
      · simp [signup, hval, hfind, hver]
      · rw [signup_update_spec db now e nm tok newId false u hval hfind (by simpa using hver),
            signup_update_spec db now e nm tok newId true u hval hfind (by simpa using hver)]
  · cases hfind : findByEmail db e with
    | none => simp [login, hval, hfind]
    | some u =>
      by_cases hver : u.verified
      · rw [login_issue_spec db now e tok false u hval hfind hver,
            login_issue_spec db now e tok true u hval hfind hver]
      · simp [login, hval, hfind, hver]
  · cases hfind : findByEmail db e with
    | none => simp [resend, hval, hfind]
    | some u =>
      by_cases hver : u.verified
      · simp [resend, hval, hfind, hver]
      · rw [resend_issue_spec db now e tok false u hval hfind (by simpa using hver),
            resend_issue_spec db now e tok true u hval hfind (by simpa using hver)]
  · intro u hfind hunv
    rw [signup_update_spec db now e nm tok newId false u hval hfind hunv]
    exact ⟨rfl, rfl,
      findByEmail_updateByEmail db e (signupRefresh now nm tok) (fun v => rfl) u hfind,
      rfl, rfl, rfl⟩
  · intro hfind
    rw [signup_create_spec db now e nm tok newId false hval hfind]
    refine ⟨rfl, rfl, ?_, rfl, rfl, rfl⟩
    rw [OpResult.db, findByEmail_append db [newUser newId e nm now tok] e hfind, findByEmail,
      List.find?_cons]
    simp [newUser]
  · intro u hfind hver
    rw [login_issue_spec db now e tok false u hval hfind hver]
    exact ⟨rfl, rfl,
      findByEmail_updateByEmail db e (issueFields now tok) (fun v => rfl) u hfind,
      rfl, rfl, rfl⟩
  · intro u hfind hunv
    rw [resend_issue_spec db now e tok false u hval hfind hunv]
    exact ⟨rfl, rfl,
      findByEmail_updateByEmail db e (issueFields now tok) (fun v => rfl) u hfind,
      rfl, rfl, rfl⟩

/-- Witness for C9: a failed notifier during login for a verified account
yields the 500 response while the fresh token T is persisted. -/
theorem notifier_failure_after_persist_witness :
    (login [⟨1, "a@x.com", some ("A"), true, none, none, false, 0⟩] 5
        (some ("a@x.com")) "T" false).resp
      = Resp.err 500 "Failed to send login link. Please try again." ∧
    (login [⟨1, "a@x.com", some ("A"), true, none, none, false, 0⟩] 5
        (some ("a@x.com")) "T" false).notified = true ∧
    findByEmail (login [⟨1, "a@x.com", some ("A"), true, none, none, false, 0⟩] 5
        (some ("a@x.com")) "T" false).db ("a@x.com")
      = some (issueFields 5 "T" ⟨1, "a@x.com", some ("A"), true, none, none, false, 0⟩) ∧
    (issueFields 5 "T" ⟨1, "a@x.com", some ("A"), true, none, none, false, 0⟩).magicLinkToken
      = some ("T") ∧
    (issueFields 5 "T" ⟨1, "a@x.com", some ("A"), true, none, none, false, 0⟩).magicLinkExpires
      = some (5 + EXPIRY_MS) ∧
    (issueFields 5 "T" ⟨1, "a@x.com", some ("A"), true, none, none, false, 0⟩).magicLinkUsed
      = false :=
  (notifier_failure_after_persist [⟨1, "a@x.com", some ("A"), true, none, none, false, 0⟩]
      5 "a@x.com" none ("T") 2 (by decide)).2.2.2.1
    ⟨1, "a@x.com", some ("A"), true, none, none, false, 0⟩ (by decide) (by decide)

/-- C10: for signup, login and resend alike, a request whose email is absent
or lacks an at-sign is rejected with the 400 invalid-input response before any
store write or notifier call (database unchanged, notifier not invoked), and a
request whose email contains an at-sign is never rejected with that response —
the at-sign check is the entire validity predicate. -/
theorem email_validity_at_boundary
    (db : List User) (now : Nat) (nm : Option String) (tok : String)
    (newId : Nat) (ok : Bool) :
    (∀ email : Option String, (∀ e, email = some e → hasAt e = false) →
      signup db now email nm tok newId ok = ⟨Resp.err 400 "Valid email is required", db, false⟩ ∧
      login db now email tok ok = ⟨Resp.err 400 "Valid email is required", db, false⟩ ∧
      resend db now email tok ok = ⟨Resp.err 400 "Valid email is required", db, false⟩) ∧
    (∀ e : String, hasAt e = true →
      (signup db now (some e) nm tok newId ok).resp ≠ Resp.err 400 "Valid email is required" ∧
      (login db now (some e) tok ok).resp ≠ Resp.err 400 "Valid email is required" ∧
      (resend db now (some e) tok ok).resp ≠ Resp.err 400 "Valid email is required") := by
  constructor
  · intro email hbad
    match email with
    | none => exact ⟨rfl, rfl, rfl⟩
    | some e =>
      have hb : hasAt e = false := hbad e rfl
      exact ⟨by simp [signup, hb], by simp [login, hb], by simp [resend, hb]⟩
  · intro e hval
    refine ⟨?_, ?_, ?_⟩
    · cases hfind : findByEmail db e with
      | none =>
        rw [signup_create_spec db now e nm tok newId ok hval hfind]
        cases ok <;> simp
      | some u =>
        by_cases hver : u.verified
        · simp [signup, hval, hfind, hver]
        · rw [signup_update_spec db now e nm tok newId ok u hval hfind (by simpa using hver)]
          cases ok <;> simp
    · cases hfind : findByEmail db e with
      | none => simp [login, hval, hfind]
      | some u =>
        by_cases hver : u.verified
        · rw [login_issue_spec db now e tok ok u hval hfind hver]
          cases ok <;> simp
        · simp [login, hval, hfind, hver]
    · cases hfind : findByEmail db e with
      | none => simp [resend, hval, hfind]
      | some u =>
        by_cases hver : u.verified
        · simp [resend, hval, hfind, hver]
        · rw [resend_issue_spec db now e tok ok u hval hfind (by simpa using hver)]
          cases ok <;> simp

/-- Witness for C10: an email without an at-sign is rejected identically by all
three endpoints on the empty database, and a well-formed email is not. -/
theorem email_validity_at_boundary_witness :
    (signup [] 5 (some ("nope")) none ("T") 1 true
        = ⟨Resp.err 400 "Valid email is required", [], false⟩ ∧
      login [] 5 (some ("nope")) "T" true
        = ⟨Resp.err 400 "Valid email is required", [], false⟩ ∧
      resend [] 5 (some ("nope")) "T" true
        = ⟨Resp.err 400 "Valid email is required", [], false⟩) ∧
    (signup [] 5 (some ("a@x.com")) none ("T") 1 true).resp
      ≠ Resp.err 400 "Valid email is required" :=
  ⟨(email_validity_at_boundary [] 5 none ("T") 1 true).1 (some ("nope"))
      (by
        intro e he
        injection he with h2
        subst h2
        decide),
   ((email_validity_at_boundary [] 5 none ("T") 1 true).2 "a@x.com" (by decide)).1⟩
